import Mathlib

/-!
Shallow embedding of the Airport-API repository (Django REST Framework
application: `airport/views.py`, `airport/urls.py`, `chat_msg/views.py`,
plus the airport `0001_initial` migration) together with proofs about the
behaviour its view layer exhibits.

Conventions of the embedding:
* the relational store is a record of lists, one list per table;
* a Django queryset is a Lean list, `.filter(...)` is `List.filter`,
  `.get`/`get_object_or_404` is `List.find?`;
* the acting principal (`request.user`) is a `User` value; an anonymous
  user is modelled with `is_authenticated = false` (Django's
  `AnonymousUser` always has `is_staff = False`);
* a denied permission check surfaces as an HTTP 401 (unauthenticated) or
  403 (authenticated) response before the handler body runs, exactly as
  DRF's `check_permissions` does;
* an uncaught Python exception (e.g. `ValueError` from
  `datetime.strptime`) is modelled as a distinguished `unhandledError`
  result: DRF's exception handler converts only its own API exceptions,
  so a `ValueError` escapes as an HTTP 500 server error, never as a
  structured 400 validation error.

Source files `airport/serializers.py`, `airport/permissions.py`,
`chat_msg/models.py` and `chat_msg/serializers.py` are not part of the
provided sources; definitions that depend on them are marked
`Modelled from the spec:` and follow the specification's wording.
-/

/-- The acting principal of a request. An anonymous (unauthenticated)
request is modelled by `is_authenticated = false`; Django's
`AnonymousUser.is_staff` is always `False`. -/
structure User where
  id : Nat
  is_authenticated : Bool
  is_staff : Bool
deriving Repr, DecidableEq

/-- HTTP methods relevant to the view sets. -/
inductive Method where
  | GET | HEAD | OPTIONS | POST | PUT | PATCH | DELETE
deriving Repr, DecidableEq

/-- DRF `SAFE_METHODS`: GET, HEAD, OPTIONS. -/
def Method.isSafe : Method → Bool
  | .GET => true
  | .HEAD => true
  | .OPTIONS => true
  | _ => false

/-- DRF built-in `IsAuthenticated` permission. -/
def IsAuthenticated (u : User) : Bool := u.is_authenticated

/-- DRF built-in `IsAdminUser` permission:
`bool(request.user and request.user.is_staff)`; an anonymous user always
has `is_staff = False`, so only an authenticated staff user passes. -/
def IsAdminUser (u : User) : Bool := u.is_authenticated && u.is_staff

/-- Modelled from the spec: `airport/permissions.py` is absent from the
sources. Spec section 4.3 describes the policy this class implements
(used on Airplane and Crew): authenticated users may read (safe
methods), only admins may write. -/
def IsAdminOrIfAuthenticatedReadOnly (u : User) (m : Method) : Bool :=
  (m.isSafe && u.is_authenticated) || IsAdminUser u

/-- Modelled from the spec: `airport/permissions.py` is absent from the
sources. Spec section 4.3 describes the policy this class implements
(used on Airport, Route, Flight): public read, admin write. -/
def IsAdminOrReadOnly (u : User) (m : Method) : Bool :=
  m.isSafe || IsAdminUser u

/-- `CrewViewSet.permission_classes = (IsAdminOrIfAuthenticatedReadOnly,)`
(`airport/views.py` line 47). -/
def crewPermission (u : User) (m : Method) : Bool :=
  IsAdminOrIfAuthenticatedReadOnly u m

/-- `AirplaneTypeViewSet.permission_classes = (IsAdminUser,)`
(`airport/views.py` line 53). -/
def airplaneTypePermission (u : User) (_ : Method) : Bool :=
  IsAdminUser u

/-- `CountryViewSet.permission_classes = (IsAdminUser,)`
(`airport/views.py` line 284). -/
def countryPermission (u : User) (_ : Method) : Bool :=
  IsAdminUser u

/-- `CityViewSet.permission_classes = (IsAdminUser,)`
(`airport/views.py` line 290). -/
def cityPermission (u : User) (_ : Method) : Bool :=
  IsAdminUser u

/-- Outcome of running a permission-guarded handler: either the handler's
response, or the denial DRF raises before the handler runs. -/
inductive GuardedResult (ρ : Type) where
  | ok (r : ρ)
  | forbidden
  | unauthorized
deriving Repr, DecidableEq

/-- DRF dispatch: `check_permissions` runs before the handler for every
action; on failure the handler never executes (so the store is untouched)
and the caller receives 403 if authenticated, 401 otherwise. -/
def guardedRun {σ ρ : Type} (perm : User → Method → Bool) (u : User)
    (m : Method) (handler : σ → ρ × σ) (s : σ) : GuardedResult ρ × σ :=
  if perm u m then
    let r := handler s
    (.ok r.1, r.2)
  else if u.is_authenticated then (.forbidden, s)
  else (.unauthorized, s)

/-! ## Airport domain: data model -/

/-- A calendar date (the value `datetime.strptime(v, "%Y-%m-%d").date()`
produces, and the date portion `departure_time__date` extracts). -/
structure Date where
  year : Nat
  month : Nat
  day : Nat
deriving Repr, DecidableEq

/-- A timestamp (Django `DateTimeField`), split into its date portion and
a time of day. -/
structure DateTime where
  date : Date
  hour : Nat
  minute : Nat
deriving Repr, DecidableEq

/-- `Airplane` model (from the `0001_initial` migration: `name`,
integer `rows`, integer `seats_in_row`, FK `airplane_type`). -/
structure Airplane where
  id : Nat
  name : String
  rows : Int
  seats_in_row : Int
  airplane_type_id : Nat
deriving Repr, DecidableEq

/-- `Flight` model (from the `0001_initial` migration:
`departure_time`, `arrival_time`, FK `route`, FK `airplane`,
M2M `crew`). -/
structure Flight where
  id : Nat
  departure_time : DateTime
  arrival_time : DateTime
  route_id : Nat
  airplane_id : Nat
  crew_ids : List Nat
deriving Repr, DecidableEq

/-- Modelled from the spec: the `Order` model is not in the provided
migrations. Spec section 3: "Order: user ref, created_at; has many
Tickets; belongs to exactly one user". -/
structure Order where
  id : Nat
  user_id : Nat
deriving Repr, DecidableEq

/-- Modelled from the spec: the `Ticket` model is not in the provided
migrations. Spec section 3: "Ticket: row, seat, flight ref, order ref". -/
structure Ticket where
  id : Nat
  row : Int
  seat : Int
  flight_id : Nat
  order_id : Nat
deriving Repr, DecidableEq

/-- The relational store backing the airport app: one list per table. -/
structure AirportStore where
  airplanes : List Airplane
  flights : List Flight
  orders : List Order
  tickets : List Ticket
deriving Repr, DecidableEq

/-- `Count("tickets")` on a flight: the number of `Ticket` rows whose
flight FK is this flight. -/
def ticket_count (s : AirportStore) (fid : Nat) : Nat :=
  (s.tickets.filter (fun t => t.flight_id == fid)).length

/-- The annotation expression of `FlightViewSet.get_queryset`
(`airport/views.py` line 220):
`F("airplane__rows") * F("airplane__seats_in_row") - Count("tickets")`.
The airplane FK is non-nullable, so the join always finds the airplane;
a dangling FK (impossible under referential integrity) yields 0 here. -/
def free_seats (s : AirportStore) (f : Flight) : Int :=
  match s.airplanes.find? (fun a => a.id == f.airplane_id) with
  | some a => a.rows * a.seats_in_row - Int.ofNat (ticket_count s f.id)
  | none => 0

/-! ## Query-string parsing -/

/-- Split a character list on a separator character (the behaviour of
Python `str.split` with a one-character separator: `n` separators yield
`n + 1` pieces, empty pieces included). -/
def splitOnChar (sep : Char) : List Char → List (List Char)
  | [] => [[]]
  | c :: cs =>
    let r := splitOnChar sep cs
    if c == sep then [] :: r
    else
      match r with
      | [] => [[c]]
      | g :: gs => (c :: g) :: gs

/-- True when every character is a decimal digit and the list is
nonempty. -/
def allDigits (cs : List Char) : Bool :=
  !cs.isEmpty && cs.all (fun c => c.isDigit)

/-- Decimal value of a digit string. -/
def digitsToNat (cs : List Char) : Nat :=
  cs.foldl (fun acc c => 10 * acc + (c.toNat - 48)) 0

/-- Gregorian leap-year rule (as Python's `datetime` validates dates). -/
def isLeap (y : Nat) : Bool :=
  (y % 4 == 0 && y % 100 != 0) || (y % 400 == 0)

/-- Days in a month of the proleptic Gregorian calendar. -/
def daysInMonth (y m : Nat) : Nat :=
  if m == 2 then (if isLeap y then 29 else 28)
  else if m == 4 || m == 6 || m == 9 || m == 11 then 30
  else 31

/-- Value of a decimal digit character. -/
def digitVal (c : Char) : Nat := c.toNat - 48

/-- The `%Y` field of CPython's `_strptime`: the anchored regex piece
`\d\d\d\d` — exactly four digits, no more, no fewer (so "999" or
"20245" never match). -/
def yearField (cs : List Char) : Option Nat :=
  if allDigits cs && cs.length == 4 then some (digitsToNat cs) else none

/-- The `%m` field of CPython's `_strptime`: the regex piece
`1[0-2]|0[1-9]|[1-9]`. A dash-free piece must be matched entirely (any
leftover character fails against the following literal dash or the
end-of-input check), so "003" or "13" yield `ValueError`. -/
def monthField : List Char → Option Nat
  | [c] => if '1' ≤ c && c ≤ '9' then some (digitVal c) else none
  | [c1, c2] =>
    if c1 == '1' && ('0' ≤ c2 && c2 ≤ '2') then some (10 + digitVal c2)
    else if c1 == '0' && ('1' ≤ c2 && c2 ≤ '9') then some (digitVal c2)
    else none
  | _ => none

/-- The `%d` field of CPython's `_strptime`: the regex piece
`3[01]|[12]\d|0[1-9]|[1-9]| [1-9]` — note the last alternative, a
SPACE followed by a nonzero digit, so the space-padded day " 1" is
accepted. -/
def dayField : List Char → Option Nat
  | [c] => if '1' ≤ c && c ≤ '9' then some (digitVal c) else none
  | [c1, c2] =>
    if c1 == '3' && ('0' ≤ c2 && c2 ≤ '1') then some (30 + digitVal c2)
    else if ('1' ≤ c1 && c1 ≤ '2') && c2.isDigit then
      some (10 * digitVal c1 + digitVal c2)
    else if c1 == '0' && ('1' ≤ c2 && c2 ≤ '9') then some (digitVal c2)
    else if c1 == ' ' && ('1' ≤ c2 && c2 ≤ '9') then some (digitVal c2)
    else none
  | _ => none

/-- Model of `datetime.strptime(v, "%Y-%m-%d").date()`. CPython's
`_strptime` compiles the format into an anchored regex — `%Y`, `%m`,
`%d` as in `yearField`/`monthField`/`dayField`, joined by literal
dashes, with the whole input consumed — so the input must split on
dashes into exactly three pieces, each entirely matched by its field
(no field alternative can contain a dash). The `datetime` constructor
then validates the parsed values: year at least `MINYEAR = 1` and day
within the month, leap years respected. Any failure raises
`ValueError`, modelled as `none`. (Non-ASCII decimal digits, which
Python's `\d` also matches, are not modelled; no behaviour judged here
depends on them.) -/
def strptime_ymd (v : String) : Option Date :=
  match splitOnChar '-' v.toList with
  | [yc, mc, dc] =>
    match yearField yc, monthField mc, dayField dc with
    | some y, some m, some d =>
      if 1 ≤ y && d ≤ daysInMonth y m then some ⟨y, m, d⟩ else none
    | _, _, _ => none
  | _ => none

/-- Model of Python `int(str_id)`: optional sign followed by digits;
anything else raises `ValueError`, modelled as `none`. This is
narrower than CPython, which also accepts surrounding whitespace,
single underscore separators between digits, and non-ASCII decimal
digits; none of the properties proved below depend on where that
boundary lies (they pass no `route` parameter or only plainly
well-formed ones). -/
def pyInt : List Char → Option Int
  | '-' :: cs => if allDigits cs then some (-(Int.ofNat (digitsToNat cs))) else none
  | '+' :: cs => if allDigits cs then some (Int.ofNat (digitsToNat cs)) else none
  | cs => if allDigits cs then some (Int.ofNat (digitsToNat cs)) else none

/-- `params_to_ints` (`airport/views.py` lines 132 to 134): split a
comma-separated string and convert each piece with `int`; a piece that
is not an integer raises `ValueError` (`none`). -/
def params_to_ints (queryset : String) : Option (List Int) :=
  (splitOnChar ',' queryset.toList).mapM pyInt

/-! ## FlightViewSet -/

/-- The `self.action` values of a DRF ModelViewSet. -/
inductive ViewAction where
  | list | retrieve | create | update | partial_update | destroy
deriving Repr, DecidableEq

/-- A flight as the queryset yields it: on list and retrieve actions the
row additionally carries the `free_tickets_seat` annotation. -/
structure AnnotatedFlight where
  flight : Flight
  free_tickets_seat : Option Int
deriving Repr, DecidableEq

/-- Result of evaluating `FlightViewSet.get_queryset`: either the rows,
or an uncaught `ValueError` (from `int` or `strptime`) that escapes DRF
as an HTTP 500 server error. A structured field-level 400 validation
error (`validationError`) is what serializer validation produces; the
queryset code never produces one. -/
inductive FlightQueryResult where
  | ok (rows : List AnnotatedFlight)
  | validationError
  | unhandledError
deriving Repr, DecidableEq

/-- Annotation step of `FlightViewSet.get_queryset` (`airport/views.py`
lines 218 to 221): on list and retrieve actions every row gains
`free_tickets_seat`; on other actions no annotation is added. -/
def annotate_free_seats (s : AirportStore) (action : ViewAction)
    (fl : List Flight) : List AnnotatedFlight :=
  if action == .list || action == .retrieve then
    fl.map (fun f => ⟨f, some (free_seats s f)⟩)
  else
    fl.map (fun f => ⟨f, none⟩)

/-- `FlightViewSet.get_queryset` (`airport/views.py` lines 204 to 222).
Query parameters are `none` when absent; Python's `if route:` /
`if departure_time:` treats an empty string like an absent parameter.
`route` filters by id membership, `departure_time` is parsed with
`strptime "%Y-%m-%d"` (an uncaught `ValueError` on malformed input) and
compared against the date portion of the departure timestamp. -/
def flight_get_queryset (s : AirportStore) (action : ViewAction)
    (route : Option String) (departure_time : Option String) :
    FlightQueryResult :=
  let step1 : Option (List Flight) :=
    match route with
    | none => some s.flights
    | some r =>
      if r.isEmpty then some s.flights
      else
        match params_to_ints r with
        | some ids => some (s.flights.filter
            (fun f => ids.contains (Int.ofNat f.route_id)))
        | none => none
  match step1 with
  | none => .unhandledError
  | some fl1 =>
    match departure_time with
    | none => .ok (annotate_free_seats s action fl1)
    | some dstr =>
      if dstr.isEmpty then .ok (annotate_free_seats s action fl1)
      else
        match strptime_ymd dstr with
        | some d => .ok (annotate_free_seats s action
            (fl1.filter (fun f => f.departure_time.date == d)))
        | none => .unhandledError

/-! ## OrderViewSet -/

/-- `OrderViewSet.get_queryset` (`airport/views.py` lines 266 to 269):
the base queryset filtered to `user=self.request.user` (then
`.distinct()`, a no-op on a by-construction duplicate-free table). -/
def order_get_queryset (s : AirportStore) (u : User) : List Order :=
  s.orders.filter (fun o => o.user_id == u.id)

/-- DRF `retrieve`: `get_object` looks the pk up inside
`get_queryset()`, so an order of another user is simply not found. -/
def order_retrieve (s : AirportStore) (u : User) (pk : Nat) : Option Order :=
  (order_get_queryset s u).find? (fun o => o.id == pk)

/-- One ticket specification of the order-creation payload
(spec section 4.2: "a list of ticket specifications
(flight id, row, seat)"). -/
structure TicketSpec where
  flight : Nat
  row : Int
  seat : Int
deriving Repr, DecidableEq

/-- Modelled from the spec: `airport/serializers.py` is absent from the
sources. Validity of one ticket specification, given the slots already
claimed by earlier specifications of the same request: the flight must
exist, row and seat must lie within the flight's airplane capacity
(`1 ≤ row ≤ rows`, `1 ≤ seat ≤ seats_in_row`, spec section 3), and the
(flight, row, seat) slot must be neither already sold nor duplicated
within the request (spec sections 4.2 and 8). -/
def ticket_spec_valid (s : AirportStore) (taken : List (Nat × Int × Int))
    (t : TicketSpec) : Bool :=
  match s.flights.find? (fun f => f.id == t.flight) with
  | none => false
  | some f =>
    match s.airplanes.find? (fun a => a.id == f.airplane_id) with
    | none => false
    | some a =>
      decide (1 ≤ t.row) && decide (t.row ≤ a.rows) &&
      decide (1 ≤ t.seat) && decide (t.seat ≤ a.seats_in_row) &&
      !(s.tickets.any (fun tk =>
          tk.flight_id == t.flight && tk.row == t.row && tk.seat == t.seat)) &&
      !(taken.contains (t.flight, t.row, t.seat))

/-- Validity of the whole ticket list, checked left to right while
accumulating the slots the request itself claims. -/
def tickets_valid_from (s : AirportStore) :
    List (Nat × Int × Int) → List TicketSpec → Bool
  | _, [] => true
  | taken, t :: ts =>
    ticket_spec_valid s taken t &&
    tickets_valid_from s ((t.flight, t.row, t.seat) :: taken) ts

/-- The whole order payload is valid iff every ticket specification is. -/
def tickets_valid (s : AirportStore) (specs : List TicketSpec) : Bool :=
  tickets_valid_from s [] specs

/-- The ticket rows an accepted order inserts (fresh ids from
`tidBase`). -/
def mk_tickets (oid tidBase : Nat) (specs : List TicketSpec) : List Ticket :=
  specs.enum.map (fun p => ⟨tidBase + p.1, p.2.row, p.2.seat, p.2.flight, oid⟩)

/-- Outcome of order creation: HTTP 201, or a structured field-level 400
validation error. -/
inductive OrderCreateResult where
  | created
  | validationError
deriving Repr, DecidableEq

/-- Modelled from the spec: `airport/serializers.py` is absent from the
sources; spec sections 4.2 and 5 require order creation to run inside a
single atomic transaction — all tickets validate first, then order and
tickets persist together, and any violation aborts with a field-level
error and no partial insert. The `user` the order is stored with comes
from `OrderViewSet.perform_create` (`airport/views.py` lines 277 to 278):
`serializer.save(user=self.request.user)` — the `save` keyword overrides
any user the request payload may carry, so `payload_user` is unused. -/
def order_create (s : AirportStore) (u : User) (payload_user : Option Nat)
    (specs : List TicketSpec) (oid tidBase : Nat) :
    OrderCreateResult × AirportStore :=
  if tickets_valid s specs then
    (.created,
      { s with
        orders := s.orders ++ [⟨oid, u.id⟩],
        tickets := s.tickets ++ mk_tickets oid tidBase specs })
  else
    (.validationError, s)

/-! ## Chat domain: data model -/

/-- Modelled from the spec: `chat_msg/models.py` is absent from the
sources. Spec section 3: "ChatSupport: enabled flag, is_support flag,
author_created ref, user_list (many users)". -/
structure ChatSupport where
  id : Nat
  enabled : Bool
  is_support : Bool
  author_created : Nat
  user_list : List Nat
deriving Repr, DecidableEq

/-- Modelled from the spec: `chat_msg/models.py` is absent from the
sources. Spec section 3: "ChatMessage: text, user ref, support_msg ref,
created_at; belongs to ChatSupport". -/
structure ChatMessage where
  id : Nat
  text : String
  user_id : Nat
  support_msg : Nat
deriving Repr, DecidableEq

/-- The relational store backing the chat app. -/
structure ChatStore where
  chats : List ChatSupport
  messages : List ChatMessage
deriving Repr, DecidableEq

/-- Responses the chat view set produces. -/
inductive ChatResponse where
  | okList (rows : List ChatSupport)
  | okChat (c : ChatSupport)
  | okMessage (m : ChatMessage)
  | okDetail
  | badRequest
  | notFound
  | forbidden
  | unauthorized
deriving Repr, DecidableEq

/-- The denial DRF's `check_permissions` raises: 403 for an
authenticated caller, 401 for an anonymous one. -/
def deniedResponse (u : User) : ChatResponse :=
  if u.is_authenticated then .forbidden else .unauthorized

/-- `ChatSupportViewSet.permission_classes = (IsAdminUser,)`
(`chat_msg/views.py` line 23); the `connect_support_to_chat` and
`disconnect_user_from_chat` actions restate the same class explicitly
(lines 86 and 100), and the other custom actions inherit it. -/
def chatPermission (u : User) : Bool := IsAdminUser u

/-- The class-level queryset of `ChatSupportViewSet`
(`chat_msg/views.py` lines 17 to 21): all chats with `enabled=True`. -/
def chat_base_queryset (s : ChatStore) : List ChatSupport :=
  s.chats.filter (fun c => c.enabled)

/-- `ChatSupportViewSet.get_queryset` (`chat_msg/views.py` lines 25 to
36): a non-staff user sees the enabled chats whose `user_list` contains
them; a staff user sees the enabled chats with `is_support=True`. -/
def chat_get_queryset (s : ChatStore) (u : User) : List ChatSupport :=
  let queryset := chat_base_queryset s
  if !u.is_staff then
    queryset.filter (fun c => c.user_list.contains u.id)
  else
    queryset.filter (fun c => c.is_support)

/-- The `list` action, permission check included. -/
def chat_list (s : ChatStore) (u : User) : ChatResponse :=
  if chatPermission u then .okList (chat_get_queryset s u)
  else deniedResponse u

/-- The `retrieve` action: `get_object` resolves the pk inside
`get_queryset()`, so a chat outside the caller's queryset is 404. -/
def chat_retrieve (s : ChatStore) (u : User) (pk : Nat) : ChatResponse :=
  if chatPermission u then
    match (chat_get_queryset s u).find? (fun c => c.id == pk) with
    | some c => .okChat c
    | none => .notFound
  else deniedResponse u

/-- Replace the chat row with primary key `pk` by `f` applied to it. -/
def updateChat (s : ChatStore) (pk : Nat) (f : ChatSupport → ChatSupport) :
    ChatStore :=
  { s with chats := s.chats.map (fun c => if c.id == pk then f c else c) }

/-- The `update` action: the object is resolved inside `get_queryset()`
(404 outside it); the applied field change is abstracted as `upd`
(the `ChatSupportSerializer` write shape is not in the sources). -/
def chat_update (s : ChatStore) (u : User) (pk : Nat)
    (upd : ChatSupport → ChatSupport) : ChatResponse × ChatStore :=
  if chatPermission u then
    match (chat_get_queryset s u).find? (fun c => c.id == pk) with
    | some c => (.okChat (upd c), updateChat s pk upd)
    | none => (.notFound, s)
  else (deniedResponse u, s)

/-- The `destroy` action: the object is resolved inside
`get_queryset()` (404 outside it), then deleted by primary key. -/
def chat_destroy (s : ChatStore) (u : User) (pk : Nat) :
    ChatResponse × ChatStore :=
  if chatPermission u then
    match (chat_get_queryset s u).find? (fun c => c.id == pk) with
    | some _ => (.okDetail, { s with chats := s.chats.filter (fun c => !(c.id == pk)) })
    | none => (.notFound, s)
  else (deniedResponse u, s)

/-- The membership list of the chat with primary key `pk`. -/
def chatMembers (s : ChatStore) (pk : Nat) : List Nat :=
  match s.chats.find? (fun c => c.id == pk) with
  | some c => c.user_list
  | none => []

/-- The request body of `create_message` (`ChatMessageSerializerCreate`
is absent from the sources; modelled from the spec, section 4.2: write
shapes carry the message text and the `support_msg` foreign key as a
bare identifier). -/
structure MessageCreateBody where
  text : String
  support_msg : Option Nat
deriving Repr, DecidableEq

/-- Modelled from the spec: `chat_msg/serializers.py` is absent from the
sources. Serializer validation of a message-creation body (spec section
4.2: "Write shapes accept foreign keys as bare identifiers and validate
existence"): the `support_msg` field must name an existing chat;
returns the validated chat id, or `none` for a field-level 400. -/
def validate_message_create (s : ChatStore) (b : MessageCreateBody) :
    Option Nat :=
  match b.support_msg with
  | some cid => if s.chats.any (fun c => c.id == cid) then some cid else none
  | none => none

/-- `ChatSupportViewSet.create_message` (`chat_msg/views.py` lines 48 to
59). The handler copies the request data and overwrites the copy's
`support_msg` with the path pk (lines 51 to 52), but then validates and
saves the ORIGINAL `request.data` (line 54), so the copy `_data` is dead
and the chat the message lands in comes entirely from the body. -/
def create_message (s : ChatStore) (u : User) (pk : Nat)
    (body : MessageCreateBody) (nid : Nat) : ChatResponse × ChatStore :=
  if chatPermission u then
    let _data : MessageCreateBody := { body with support_msg := some pk }
    match validate_message_create s body with
    | some cid =>
      let m : ChatMessage := ⟨nid, body.text, u.id, cid⟩
      (.okMessage m, { s with messages := s.messages ++ [m] })
    | none => (.badRequest, s)
  else (deniedResponse u, s)

/-- The request body of `update_message` (partial update: only the
provided fields change; serializer absent from the sources, fields
modelled from the spec's ChatMessage shape). -/
structure MessageUpdateBody where
  text : Option String
  support_msg : Option Nat
deriving Repr, DecidableEq

/-- Field-level validation of a partial update: a provided
`support_msg` must name an existing chat. -/
def validate_message_update (s : ChatStore) (b : MessageUpdateBody) : Bool :=
  match b.support_msg with
  | some cid => s.chats.any (fun c => c.id == cid)
  | none => true

/-- Apply a partial update to a message. -/
def apply_message_update (m : ChatMessage) (b : MessageUpdateBody) :
    ChatMessage :=
  { m with
    text := b.text.getD m.text,
    support_msg := b.support_msg.getD m.support_msg }

/-- `ChatSupportViewSet.update_message` (`chat_msg/views.py` lines 61 to
72): `get_object_or_404(ChatMessage, id=message_pk, user=request.user)`
scopes the lookup to author-and-id — another author's message surfaces
as 404 — then a partial serializer update is saved on the found row. -/
def update_message (s : ChatStore) (u : User) (_pk : Nat) (message_pk : Nat)
    (body : MessageUpdateBody) : ChatResponse × ChatStore :=
  if chatPermission u then
    match s.messages.find? (fun m => m.id == message_pk && m.user_id == u.id) with
    | none => (.notFound, s)
    | some m =>
      if validate_message_update s body then
        let m2 := apply_message_update m body
        (.okMessage m2,
          { s with messages := (s.messages.map
              (fun x => if x.id == message_pk then apply_message_update x body else x)) })
      else (.badRequest, s)
  else (deniedResponse u, s)

/-- `ChatSupportViewSet.delete_message` (`chat_msg/views.py` lines 74 to
81): the same author-and-id scoped lookup (404 for another author's
message), then the found row is deleted. -/
def delete_message (s : ChatStore) (u : User) (_pk : Nat)
    (message_pk : Nat) : ChatResponse × ChatStore :=
  if chatPermission u then
    match s.messages.find? (fun m => m.id == message_pk && m.user_id == u.id) with
    | none => (.notFound, s)
    | some _ =>
      (.okDetail, { s with messages := s.messages.filter (fun x => !(x.id == message_pk)) })
  else (deniedResponse u, s)

/-- `ChatSupportViewSet.connect_support_to_chat` (`chat_msg/views.py`
lines 83 to 95): the chat is resolved directly with
`get_object_or_404(ChatSupport, pk=pk)` — NOT through the
enabled-filtered queryset — then, if the caller is not yet in
`user_list`, they are added (200); otherwise 400 and no change. -/
def connect_support_to_chat (s : ChatStore) (u : User) (pk : Nat) :
    ChatResponse × ChatStore :=
  if chatPermission u then
    match s.chats.find? (fun c => c.id == pk) with
    | none => (.notFound, s)
    | some c =>
      if !(c.user_list.contains u.id) then
        (.okDetail, updateChat s pk (fun x => { x with user_list := x.user_list ++ [u.id] }))
      else (.badRequest, s)
  else (deniedResponse u, s)

/-- `ChatSupportViewSet.disconnect_user_from_chat` (`chat_msg/views.py`
lines 97 to 110): the chat is resolved directly by pk (no enabled
filter); if the caller is in `user_list` they are removed (200),
otherwise 400 and no change. -/
def disconnect_user_from_chat (s : ChatStore) (u : User) (pk : Nat) :
    ChatResponse × ChatStore :=
  if chatPermission u then
    match s.chats.find? (fun c => c.id == pk) with
    | none => (.notFound, s)
    | some c =>
      if c.user_list.contains u.id then
        (.okDetail, updateChat s pk (fun x => { x with user_list := x.user_list.filter (fun y => !(y == u.id)) }))
      else (.badRequest, s)
  else (deniedResponse u, s)

/-! ## Helper lemmas -/

/-- In a list of chats with pairwise distinct primary keys, two members
with the same id are the same row. -/
theorem mem_id_unique {l : List ChatSupport} {a b : ChatSupport}
    (hp : l.Pairwise (fun x y => x.id ≠ y.id)) (ha : a ∈ l) (hb : b ∈ l)
    (hab : a.id = b.id) : a = b := by
  induction l with
  | nil => cases ha
  | cons h t ih =>
    have hp' := List.pairwise_cons.mp hp
    cases ha with
    | head =>
      cases hb with
      | head => rfl
      | tail _ hb' => exact absurd hab (hp'.1 b hb')
    | tail _ ha' =>
      cases hb with
      | head => exact absurd hab.symm (hp'.1 a ha')
      | tail _ hb' => exact ih hp'.2 ha' hb'

/-- `find?` by primary key returns the member carrying that key when
keys are pairwise distinct. -/
theorem find_of_mem_pairwise {l : List ChatSupport} {c : ChatSupport}
    {pk : Nat} (hp : l.Pairwise (fun x y => x.id ≠ y.id)) (hm : c ∈ l)
    (hid : c.id = pk) : l.find? (fun x => x.id == pk) = some c := by
  induction l with
  | nil => cases hm
  | cons h t ih =>
    have hp' := List.pairwise_cons.mp hp
    by_cases hh : h.id = pk
    · cases hm with
      | head => simp [List.find?_cons, hh]
      | tail _ hm' =>
        exact absurd (hh.trans hid.symm) (hp'.1 c hm')
    · cases hm with
      | head => exact absurd hid hh
      | tail _ hm' =>
        have : (h.id == pk) = false := by simpa using hh
        simp [List.find?_cons, this, ih hp'.2 hm']

/-- Updating the row with key `pk` commutes with `find?` by that key,
provided the update preserves the key. -/
theorem find_map_update (l : List ChatSupport) (pk : Nat)
    (f : ChatSupport → ChatSupport) (hf : ∀ c, (f c).id = c.id) :
    (l.map (fun c => if c.id == pk then f c else c)).find?
        (fun c => c.id == pk) =
      (l.find? (fun c => c.id == pk)).map f := by
  induction l with
  | nil => rfl
  | cons h t ih =>
    by_cases hh : (h.id == pk) = true
    · have hfh : ((f h).id == pk) = true := by rw [hf]; exact hh
      rw [List.map_cons, if_pos hh, List.find?_cons, hfh, List.find?_cons, hh]
      rfl
    · have hb : (h.id == pk) = false := by simpa using hh
      rw [List.map_cons, if_neg hh, List.find?_cons, List.find?_cons, hb]
      exact ih

/-- A chat in the caller's queryset is a stored, enabled chat. -/
theorem mem_of_mem_chat_queryset {s : ChatStore} {u : User}
    {x : ChatSupport} (hx : x ∈ chat_get_queryset s u) :
    x ∈ s.chats ∧ x.enabled = true := by
  simp only [chat_get_queryset, chat_base_queryset] at hx
  split at hx <;>
    · have h1 := List.mem_filter.mp hx
      have h2 := List.mem_filter.mp h1.1
      exact ⟨h2.1, h2.2⟩

/-- The membership list after `updateChat` of the targeted chat, when
the update preserves the key. -/
theorem chatMembers_updateChat {s : ChatStore} {pk : Nat}
    (f : ChatSupport → ChatSupport) {c : ChatSupport}
    (hf : ∀ x, (f x).id = x.id)
    (hc : s.chats.find? (fun x => x.id == pk) = some c) :
    chatMembers (updateChat s pk f) pk = (f c).user_list := by
  simp only [chatMembers, updateChat]
  rw [find_map_update _ _ _ hf, hc]
  rfl

/-! ## Claim C5: access policy of AirplaneType, Country, City, Crew -/

/-- `Crew` model (from the `0001_initial` migration: `first_name`,
`last_name`). -/
structure Crew where
  id : Nat
  first_name : String
  last_name : String
deriving Repr, DecidableEq

/-- The `list` action of `CrewViewSet` through DRF dispatch: permission
check first, then the queryset (`Crew.objects.all()`) is returned. -/
def crew_list_action (u : User) (s : List Crew) :
    GuardedResult (List Crew) × List Crew :=
  guardedRun crewPermission u .GET (fun s => (s, s)) s

/-- C5 counterexample: the claim says every Crew operation succeeds only
for a staff principal, but `CrewViewSet` uses
`IsAdminOrIfAuthenticatedReadOnly` (`airport/views.py` line 47), so an
authenticated NON-staff caller's list request is served, not rejected. -/
theorem crew_list_serves_non_staff_caller :
    crew_list_action ⟨7, true, false⟩ [⟨1, "Amelia", "Earhart"⟩] =
      (.ok [⟨1, "Amelia", "Earhart"⟩], [⟨1, "Amelia", "Earhart"⟩]) := by
  rfl

/-- C5 (amended): AirplaneType, Country and City are admin-only for
every verb — an authenticated non-staff caller gets 403, an anonymous
caller 401, and in either case the handler never runs so the store is
unchanged; Crew, however, grants read (safe methods) to any
authenticated user and restricts only writes to staff. -/
theorem admin_only_resource_policy (u : User) (m : Method) {σ ρ : Type}
    (handler : σ → ρ × σ) (s : σ) :
    (airplaneTypePermission u m = true ↔
       u.is_authenticated = true ∧ u.is_staff = true) ∧
    (countryPermission u m = true ↔
       u.is_authenticated = true ∧ u.is_staff = true) ∧
    (cityPermission u m = true ↔
       u.is_authenticated = true ∧ u.is_staff = true) ∧
    (crewPermission u m = true ↔
       ((m.isSafe = true ∧ u.is_authenticated = true) ∨
        (u.is_authenticated = true ∧ u.is_staff = true))) ∧
    (u.is_authenticated = true → u.is_staff = false →
       guardedRun airplaneTypePermission u m handler s = (.forbidden, s) ∧
       guardedRun countryPermission u m handler s = (.forbidden, s) ∧
       guardedRun cityPermission u m handler s = (.forbidden, s) ∧
       (m.isSafe = false →
          guardedRun crewPermission u m handler s = (.forbidden, s))) ∧
    (u.is_authenticated = false →
       guardedRun airplaneTypePermission u m handler s = (.unauthorized, s) ∧
       guardedRun countryPermission u m handler s = (.unauthorized, s) ∧
       guardedRun cityPermission u m handler s = (.unauthorized, s) ∧
       guardedRun crewPermission u m handler s = (.unauthorized, s)) := by
  obtain ⟨i, ha, hs⟩ := u
  cases ha <;> cases hs <;>
    simp [airplaneTypePermission, countryPermission, cityPermission,
      crewPermission, IsAdminOrIfAuthenticatedReadOnly, IsAdminUser,
      guardedRun]

/-- Witness for `admin_only_resource_policy` at concrete inputs: an
authenticated non-staff caller is rejected from AirplaneType with 403
and the store is unchanged, while the same caller passes the Crew read
policy. -/
theorem admin_only_resource_policy_witness :
    guardedRun airplaneTypePermission ⟨7, true, false⟩ Method.GET
        (fun (s : List Crew) => (s, s)) [] =
      (.forbidden, ([] : List Crew)) ∧
    crewPermission ⟨7, true, false⟩ Method.GET = true := by
  have h := admin_only_resource_policy ⟨7, true, false⟩ Method.GET
    (fun (s : List Crew) => (s, s)) []
  exact ⟨(h.2.2.2.2.1 rfl rfl).1, (h.2.2.2.1).mpr (Or.inl ⟨rfl, rfl⟩)⟩

/-! ## Claim C3: ownership isolation on Orders -/

/-- C3: `OrderViewSet.get_queryset` filters to
`user=self.request.user`, `get_object` resolves the pk inside that
queryset, and `perform_create` saves with `user=self.request.user`
overriding any payload value — so list and retrieve expose only the
caller's own orders, for any store contents, and every created order
belongs to the caller. -/
theorem order_ownership_isolation (s : AirportStore) (u : User) (pk : Nat)
    (payload_user : Option Nat) (specs : List TicketSpec) (oid tid : Nat) :
    (∀ o ∈ order_get_queryset s u, o.user_id = u.id) ∧
    (∀ o, order_retrieve s u pk = some o → o.user_id = u.id) ∧
    (∀ o ∈ (order_create s u payload_user specs oid tid).2.orders,
       o ∈ s.orders ∨ o.user_id = u.id) := by
  have hq : ∀ o ∈ order_get_queryset s u, o.user_id = u.id := by
    intro o ho
    have := List.mem_filter.mp ho
    simpa using this.2
  refine ⟨hq, ?_, ?_⟩
  · intro o ho
    exact hq o (List.mem_of_find?_eq_some ho)
  · intro o ho
    simp only [order_create] at ho
    split at ho
    · simp only [List.mem_append, List.mem_singleton] at ho
      cases ho with
      | inl h => exact Or.inl h
      | inr h => exact Or.inr (by rw [h])
    · exact Or.inl ho

/-- Witness for `order_ownership_isolation`: a store holding one order
of user 7 and one of user 9; user 7's retrieve of their own order
succeeds and the theorem yields its ownership, and an order created by
user 7 with a payload naming user 9 still belongs to user 7. -/
theorem order_ownership_isolation_witness :
    order_retrieve
        ⟨[], [], [⟨1, 7⟩, ⟨2, 9⟩], []⟩ ⟨7, true, false⟩ 1 = some ⟨1, 7⟩ ∧
    Order.user_id ⟨1, 7⟩ = 7 ∧
    Order.mk 5 7 ∈
      (order_create ⟨[], [], [⟨1, 7⟩, ⟨2, 9⟩], []⟩ ⟨7, true, false⟩
          (some 9) [] 5 10).2.orders ∧
    (Order.mk 5 7 ∈ ([⟨1, 7⟩, ⟨2, 9⟩] : List Order) ∨
       Order.user_id ⟨5, 7⟩ = 7) := by
  have h := order_ownership_isolation ⟨[], [], [⟨1, 7⟩, ⟨2, 9⟩], []⟩
    ⟨7, true, false⟩ 1 (some 9) [] 5 10
  refine ⟨by rfl, h.2.1 ⟨1, 7⟩ (by rfl), by decide, ?_⟩
  exact h.2.2 ⟨5, 7⟩ (by decide)

/-! ## Claim C1: atomic order creation -/

/-- C1: order creation is atomic — if the validated ticket list
contains any invalid ticket (unknown flight, row or seat outside the
airplane's capacity, slot already sold, or slot duplicated within the
request), the result is a field-level validation error and the store is
returned exactly as it was (no new order, no new tickets); if every
ticket is valid, the order and all of its tickets persist together. -/
theorem order_create_is_atomic (s : AirportStore) (u : User)
    (payload_user : Option Nat) (specs : List TicketSpec) (oid tid : Nat) :
    (tickets_valid s specs = false →
       order_create s u payload_user specs oid tid =
         (.validationError, s)) ∧
    (tickets_valid s specs = true →
       order_create s u payload_user specs oid tid =
         (.created,
           { s with
             orders := s.orders ++ [⟨oid, u.id⟩],
             tickets := s.tickets ++ mk_tickets oid tid specs })) := by
  constructor
  · intro hbad
    simp [order_create, hbad]
  · intro hgood
    simp [order_create, hgood]

/-- Witness for `order_create_is_atomic` at concrete inputs: the spec's
scenario of a duplicate slot (two tickets both naming flight 1, row 1,
seat 2) aborts with no change to the store, while the same request with
distinct valid seats persists the order and both tickets. -/
theorem order_create_is_atomic_witness :
    tickets_valid
        ⟨[⟨1, "a", 2, 3, 1⟩],
         [⟨1, ⟨⟨2024, 3, 1⟩, 10, 0⟩, ⟨⟨2024, 3, 1⟩, 12, 0⟩, 1, 1, []⟩],
         [], [⟨1, 1, 1, 1, 1⟩]⟩
        [⟨1, 1, 2⟩, ⟨1, 1, 2⟩] = false ∧
    order_create
        ⟨[⟨1, "a", 2, 3, 1⟩],
         [⟨1, ⟨⟨2024, 3, 1⟩, 10, 0⟩, ⟨⟨2024, 3, 1⟩, 12, 0⟩, 1, 1, []⟩],
         [], [⟨1, 1, 1, 1, 1⟩]⟩
        ⟨7, true, false⟩ none [⟨1, 1, 2⟩, ⟨1, 1, 2⟩] 5 10 =
      (.validationError,
        ⟨[⟨1, "a", 2, 3, 1⟩],
         [⟨1, ⟨⟨2024, 3, 1⟩, 10, 0⟩, ⟨⟨2024, 3, 1⟩, 12, 0⟩, 1, 1, []⟩],
         [], [⟨1, 1, 1, 1, 1⟩]⟩) ∧
    order_create
        ⟨[⟨1, "a", 2, 3, 1⟩],
         [⟨1, ⟨⟨2024, 3, 1⟩, 10, 0⟩, ⟨⟨2024, 3, 1⟩, 12, 0⟩, 1, 1, []⟩],
         [], [⟨1, 1, 1, 1, 1⟩]⟩
        ⟨7, true, false⟩ none [⟨1, 1, 2⟩, ⟨1, 2, 1⟩] 5 10 =
      (.created,
        ⟨[⟨1, "a", 2, 3, 1⟩],
         [⟨1, ⟨⟨2024, 3, 1⟩, 10, 0⟩, ⟨⟨2024, 3, 1⟩, 12, 0⟩, 1, 1, []⟩],
         [⟨5, 7⟩],
         [⟨1, 1, 1, 1, 1⟩, ⟨10, 1, 2, 1, 5⟩, ⟨11, 2, 1, 1, 5⟩]⟩) := by
  have h1 := order_create_is_atomic
    ⟨[⟨1, "a", 2, 3, 1⟩],
     [⟨1, ⟨⟨2024, 3, 1⟩, 10, 0⟩, ⟨⟨2024, 3, 1⟩, 12, 0⟩, 1, 1, []⟩],
     [], [⟨1, 1, 1, 1, 1⟩]⟩
    ⟨7, true, false⟩ none [⟨1, 1, 2⟩, ⟨1, 1, 2⟩] 5 10
  have h2 := order_create_is_atomic
    ⟨[⟨1, "a", 2, 3, 1⟩],
     [⟨1, ⟨⟨2024, 3, 1⟩, 10, 0⟩, ⟨⟨2024, 3, 1⟩, 12, 0⟩, 1, 1, []⟩],
     [], [⟨1, 1, 1, 1, 1⟩]⟩
    ⟨7, true, false⟩ none [⟨1, 1, 2⟩, ⟨1, 2, 1⟩] 5 10
  refine ⟨by decide, h1.1 (by decide), ?_⟩
  have := h2.2 (by decide)
  rw [this]
  rfl

/-! ## Claim C2: the free_tickets_seat annotation -/

/-- Every successful evaluation of `FlightViewSet.get_queryset` is the
annotation step applied to some filtered flight list. -/
theorem flight_get_queryset_ok_shape (s : AirportStore)
    (action : ViewAction) (route departure_time : Option String)
    (l : List AnnotatedFlight)
    (h : flight_get_queryset s action route departure_time = .ok l) :
    ∃ fl, l = annotate_free_seats s action fl := by
  simp only [flight_get_queryset] at h
  split at h
  · exact absurd h (by simp)
  · split at h
    · exact ⟨_, by injection h with h; exact h.symm⟩
    · split at h
      · exact ⟨_, by injection h with h; exact h.symm⟩
      · split at h
        · exact ⟨_, by injection h with h; exact h.symm⟩
        · exact absurd h (by simp)

/-- A row of the annotation step carries `some (free_seats ...)` on list
and retrieve actions and `none` otherwise. -/
theorem annotate_free_seats_spec (s : AirportStore) (action : ViewAction)
    (fl : List Flight) (af : AnnotatedFlight)
    (haf : af ∈ annotate_free_seats s action fl) :
    af.free_tickets_seat =
      if action == .list || action == .retrieve then
        some (free_seats s af.flight)
      else none := by
  simp only [annotate_free_seats] at haf
  split at haf <;> rename_i hact <;>
    · obtain ⟨f, _, rfl⟩ := List.mem_map.mp haf
      simp [hact]

/-- C2: every flight row the Flight list or retrieve queryset returns
carries `free_tickets_seat = airplane.rows * airplane.seats_in_row -
count(tickets of the flight)`, all read from the same store snapshot;
on every other action the queryset adds no annotation. -/
theorem flight_free_seats_annotation (s : AirportStore)
    (action : ViewAction) (route departure_time : Option String)
    (l : List AnnotatedFlight) (af : AnnotatedFlight)
    (h : flight_get_queryset s action route departure_time = .ok l)
    (haf : af ∈ l) :
    ((action = .list ∨ action = .retrieve) →
       ∀ a, s.airplanes.find? (fun x => x.id == af.flight.airplane_id) =
              some a →
         af.free_tickets_seat =
           some (a.rows * a.seats_in_row -
             Int.ofNat (ticket_count s af.flight.id))) ∧
    (action ≠ .list → action ≠ .retrieve →
       af.free_tickets_seat = none) := by
  obtain ⟨fl, rfl⟩ := flight_get_queryset_ok_shape s action route
    departure_time l h
  have hspec := annotate_free_seats_spec s action fl af haf
  constructor
  · intro hact a ha
    have hb : (action == .list || action == .retrieve) = true := by
      cases hact with
      | inl h => simp [h]
      | inr h => simp [h]
    rw [hspec, if_pos hb, free_seats, ha]
  · intro h1 h2
    have hb : (action == .list || action == .retrieve) = false := by
      cases action <;> simp_all
    rw [hspec, if_neg (by simp [hb])]

/-- Witness for `flight_free_seats_annotation`: a concrete store with a
2-row, 3-seats-per-row airplane and one sold ticket; the list queryset
returns the flight annotated with 2 * 3 - 1 = 5 free seats. -/
theorem flight_free_seats_annotation_witness :
    flight_get_queryset
        ⟨[⟨1, "a", 2, 3, 1⟩],
         [⟨1, ⟨⟨2024, 3, 1⟩, 10, 0⟩, ⟨⟨2024, 3, 1⟩, 12, 0⟩, 1, 1, []⟩],
         [], [⟨1, 1, 1, 1, 1⟩]⟩
        .list none none =
      .ok [⟨⟨1, ⟨⟨2024, 3, 1⟩, 10, 0⟩, ⟨⟨2024, 3, 1⟩, 12, 0⟩, 1, 1, []⟩,
            some 5⟩] ∧
    AnnotatedFlight.free_tickets_seat
        ⟨⟨1, ⟨⟨2024, 3, 1⟩, 10, 0⟩, ⟨⟨2024, 3, 1⟩, 12, 0⟩, 1, 1, []⟩,
         some 5⟩ =
      some (2 * 3 - Int.ofNat 1) := by
  have h := flight_free_seats_annotation
    ⟨[⟨1, "a", 2, 3, 1⟩],
     [⟨1, ⟨⟨2024, 3, 1⟩, 10, 0⟩, ⟨⟨2024, 3, 1⟩, 12, 0⟩, 1, 1, []⟩],
     [], [⟨1, 1, 1, 1, 1⟩]⟩
    .list none none
    [⟨⟨1, ⟨⟨2024, 3, 1⟩, 10, 0⟩, ⟨⟨2024, 3, 1⟩, 12, 0⟩, 1, 1, []⟩, some 5⟩]
    ⟨⟨1, ⟨⟨2024, 3, 1⟩, 10, 0⟩, ⟨⟨2024, 3, 1⟩, 12, 0⟩, 1, 1, []⟩, some 5⟩
    (by rfl) (by simp)
  exact ⟨by rfl, h.1 (Or.inl rfl) ⟨1, "a", 2, 3, 1⟩ (by rfl)⟩

/-! ## Claim C8: the departure_time filter -/

/-- C8 counterexample: the claim says a malformed `departure_time`
value fails with a structured field-level validation error, but
`FlightViewSet.get_queryset` calls `datetime.strptime` with no
exception handling (`airport/views.py` line 215), so the `ValueError`
escapes as an unhandled server error. -/
theorem flight_departure_malformed_is_unhandled :
    flight_get_queryset
        ⟨[], [⟨1, ⟨⟨2024, 3, 1⟩, 10, 0⟩, ⟨⟨2024, 3, 1⟩, 12, 0⟩, 1, 1, []⟩],
         [], []⟩
        .list none (some "03/01/2024") = .unhandledError ∧
    FlightQueryResult.unhandledError ≠ FlightQueryResult.validationError := by
  exact ⟨by rfl, by decide⟩

/-- C8 (amended): a well-formed `departure_time=YYYY-MM-DD` value
selects exactly the flights whose departure timestamp has that calendar
date, regardless of time of day; a malformed non-empty value raises an
uncaught `ValueError` inside `strptime`, surfacing as an unhandled
server error rather than a structured field-level validation error. -/
theorem flight_departure_filter_behavior (s : AirportStore) (v : String)
    (d : Date) :
    (strptime_ymd v = some d →
       flight_get_queryset s .list none (some v) =
         .ok (annotate_free_seats s .list
           (s.flights.filter (fun f => f.departure_time.date == d)))) ∧
    (strptime_ymd v = some d →
       ∀ f : Flight,
         f ∈ s.flights.filter (fun x => x.departure_time.date == d) ↔
           f ∈ s.flights ∧ f.departure_time.date = d) ∧
    (v.isEmpty = false → strptime_ymd v = none →
       flight_get_queryset s .list none (some v) = .unhandledError) := by
  refine ⟨?_, ?_, ?_⟩
  · intro hd
    have hne : v.isEmpty = false := by
      by_contra hcon
      have hv : v = "" := (String.isEmpty_iff v).mp (by simpa using hcon)
      rw [hv] at hd
      have hnone : strptime_ymd "" = none := rfl
      rw [hnone] at hd
      exact Option.noConfusion hd
    simp [flight_get_queryset, hne, hd]
  · intro _ f
    simp [List.mem_filter]
  · intro hne hnone
    simp [flight_get_queryset, hne, hnone]

/-- Witness for `flight_departure_filter_behavior` at concrete inputs:
`departure_time=2024-03-01` keeps the flight departing 2024-03-01 at
10:00 and drops the one departing 2024-03-02; the malformed values
`2024-13-99` and `999-01-01` (a three-digit year — `%Y` needs exactly
four) produce the unhandled-error outcome; and the space-padded day
value `2024-01- 1`, which CPython's `%d` accepts, is served normally
(an empty result here, not an error). -/
theorem flight_departure_filter_behavior_witness :
    strptime_ymd "2024-03-01" = some ⟨2024, 3, 1⟩ ∧
    strptime_ymd "2024-01- 1" = some ⟨2024, 1, 1⟩ ∧
    strptime_ymd "999-01-01" = none ∧
    flight_get_queryset
        ⟨[], [⟨1, ⟨⟨2024, 3, 1⟩, 10, 0⟩, ⟨⟨2024, 3, 1⟩, 12, 0⟩, 1, 1, []⟩],
         [], []⟩
        .list none (some "999-01-01") = .unhandledError ∧
    flight_get_queryset
        ⟨[], [⟨1, ⟨⟨2024, 3, 1⟩, 10, 0⟩, ⟨⟨2024, 3, 1⟩, 12, 0⟩, 1, 1, []⟩],
         [], []⟩
        .list none (some "2024-01- 1") = .ok [] ∧
    flight_get_queryset
        ⟨[], [⟨1, ⟨⟨2024, 3, 1⟩, 10, 0⟩, ⟨⟨2024, 3, 1⟩, 12, 0⟩, 1, 1, []⟩,
              ⟨2, ⟨⟨2024, 3, 2⟩, 10, 0⟩, ⟨⟨2024, 3, 2⟩, 12, 0⟩, 1, 1, []⟩],
         [], []⟩
        .list none (some "2024-03-01") =
      .ok (annotate_free_seats
        ⟨[], [⟨1, ⟨⟨2024, 3, 1⟩, 10, 0⟩, ⟨⟨2024, 3, 1⟩, 12, 0⟩, 1, 1, []⟩,
              ⟨2, ⟨⟨2024, 3, 2⟩, 10, 0⟩, ⟨⟨2024, 3, 2⟩, 12, 0⟩, 1, 1, []⟩],
         [], []⟩
        .list
        [⟨1, ⟨⟨2024, 3, 1⟩, 10, 0⟩, ⟨⟨2024, 3, 1⟩, 12, 0⟩, 1, 1, []⟩]) ∧
    flight_get_queryset
        ⟨[], [⟨1, ⟨⟨2024, 3, 1⟩, 10, 0⟩, ⟨⟨2024, 3, 1⟩, 12, 0⟩, 1, 1, []⟩],
         [], []⟩
        .list none (some "2024-13-99") = .unhandledError := by
  have h1 := flight_departure_filter_behavior
    ⟨[], [⟨1, ⟨⟨2024, 3, 1⟩, 10, 0⟩, ⟨⟨2024, 3, 1⟩, 12, 0⟩, 1, 1, []⟩,
          ⟨2, ⟨⟨2024, 3, 2⟩, 10, 0⟩, ⟨⟨2024, 3, 2⟩, 12, 0⟩, 1, 1, []⟩],
     [], []⟩
    "2024-03-01" ⟨2024, 3, 1⟩
  have h2 := flight_departure_filter_behavior
    ⟨[], [⟨1, ⟨⟨2024, 3, 1⟩, 10, 0⟩, ⟨⟨2024, 3, 1⟩, 12, 0⟩, 1, 1, []⟩],
     [], []⟩
    "2024-13-99" ⟨2024, 3, 1⟩
  have h3 := flight_departure_filter_behavior
    ⟨[], [⟨1, ⟨⟨2024, 3, 1⟩, 10, 0⟩, ⟨⟨2024, 3, 1⟩, 12, 0⟩, 1, 1, []⟩],
     [], []⟩
    "999-01-01" ⟨2024, 3, 1⟩
  have h4 := flight_departure_filter_behavior
    ⟨[], [⟨1, ⟨⟨2024, 3, 1⟩, 10, 0⟩, ⟨⟨2024, 3, 1⟩, 12, 0⟩, 1, 1, []⟩],
     [], []⟩
    "2024-01- 1" ⟨2024, 1, 1⟩
  refine ⟨by rfl, by rfl, by rfl, h3.2.2 (by rfl) (by rfl), ?_, ?_,
    h2.2.2 (by rfl) (by rfl)⟩
  · have := h4.1 (by rfl)
    rw [this]
    rfl
  · have := h1.1 (by rfl)
    rw [this]
    rfl

/-! ## Claim C4: chat visibility -/

/-- C4: the spec intends a regular user to see the enabled support
threads whose membership list contains them (the non-staff branch of
`get_queryset`, `chat_msg/views.py` lines 28 to 31), but the viewset's
class-level `permission_classes = (IsAdminUser,)` (line 23) rejects
every non-staff caller with 403 before `get_queryset` can run: a member
user's list request is forbidden even though the queryset branch would
have returned their thread. -/
theorem chat_list_rejects_member_regular_user :
    chat_list ⟨[⟨1, true, false, 7, [7]⟩], []⟩ ⟨7, true, false⟩ =
      .forbidden ∧
    chat_get_queryset ⟨[⟨1, true, false, 7, [7]⟩], []⟩ ⟨7, true, false⟩ =
      [⟨1, true, false, 7, [7]⟩] ∧
    chat_list ⟨[⟨1, true, false, 7, [7]⟩, ⟨2, true, true, 7, []⟩], []⟩
        ⟨8, true, true⟩ =
      .okList [⟨2, true, true, 7, []⟩] := by
  exact ⟨by rfl, by rfl, by rfl⟩

/-! ## Claim C7: author-scoped chat-message mutation -/

/-- C7: the claim says any non-author receives 404 from
`update_message`/`delete_message` (the author-and-id scoped lookup,
`chat_msg/views.py` lines 65 and 78) — but the viewset-level
`IsAdminUser` permission rejects every non-staff caller with 403 first,
so a non-staff non-author gets forbidden (not the claimed not-found),
a non-staff AUTHOR cannot mutate their own message at all, and only
staff callers reach the claimed 404-on-non-author behaviour. The store
is unchanged in each rejected case. -/
theorem message_mutation_blocked_before_lookup :
    update_message ⟨[⟨1, true, true, 9, [9]⟩], [⟨3, "hi", 9, 1⟩]⟩
        ⟨5, true, false⟩ 1 3 ⟨some "new", none⟩ =
      (.forbidden, ⟨[⟨1, true, true, 9, [9]⟩], [⟨3, "hi", 9, 1⟩]⟩) ∧
    delete_message ⟨[⟨1, true, true, 9, [9]⟩], [⟨3, "hi", 9, 1⟩]⟩
        ⟨5, true, false⟩ 1 3 =
      (.forbidden, ⟨[⟨1, true, true, 9, [9]⟩], [⟨3, "hi", 9, 1⟩]⟩) ∧
    update_message ⟨[⟨1, true, true, 9, [9]⟩], [⟨3, "hi", 9, 1⟩]⟩
        ⟨9, true, false⟩ 1 3 ⟨some "new", none⟩ =
      (.forbidden, ⟨[⟨1, true, true, 9, [9]⟩], [⟨3, "hi", 9, 1⟩]⟩) ∧
    update_message ⟨[⟨1, true, true, 9, [9]⟩], [⟨3, "hi", 9, 1⟩]⟩
        ⟨8, true, true⟩ 1 3 ⟨some "new", none⟩ =
      (.notFound, ⟨[⟨1, true, true, 9, [9]⟩], [⟨3, "hi", 9, 1⟩]⟩) ∧
    delete_message ⟨[⟨1, true, true, 9, [9]⟩], [⟨3, "hi", 9, 1⟩]⟩
        ⟨8, true, true⟩ 1 3 =
      (.notFound, ⟨[⟨1, true, true, 9, [9]⟩], [⟨3, "hi", 9, 1⟩]⟩) ∧
    update_message ⟨[⟨1, true, true, 9, [9]⟩], [⟨3, "hi", 9, 1⟩]⟩
        ⟨9, true, true⟩ 1 3 ⟨some "new", none⟩ =
      (.okMessage ⟨3, "new", 9, 1⟩,
        ⟨[⟨1, true, true, 9, [9]⟩], [⟨3, "new", 9, 1⟩]⟩) := by
  refine ⟨by rfl, by rfl, by rfl, by rfl, by rfl, by rfl⟩

/-! ## Claim C6: strict (non-idempotent) chat membership transitions -/

/-- C6: for a staff caller and a chat resolved by pk,
`connect_support_to_chat` adds the caller and returns success when they
are not yet a member, and returns a 400 client error leaving the store
untouched when they already are; `disconnect_user_from_chat` is the
exact inverse: it removes the caller when they are a member and returns
a 400 client error with the store untouched when they are not. -/
theorem chat_membership_transitions_strict (s : ChatStore) (u : User)
    (pk : Nat) (c : ChatSupport) (hu : IsAdminUser u = true)
    (hc : s.chats.find? (fun x => x.id == pk) = some c) :
    (c.user_list.contains u.id = false →
       (connect_support_to_chat s u pk).1 = .okDetail ∧
       chatMembers (connect_support_to_chat s u pk).2 pk =
         c.user_list ++ [u.id]) ∧
    (c.user_list.contains u.id = true →
       connect_support_to_chat s u pk = (.badRequest, s)) ∧
    (c.user_list.contains u.id = true →
       (disconnect_user_from_chat s u pk).1 = .okDetail ∧
       chatMembers (disconnect_user_from_chat s u pk).2 pk =
         c.user_list.filter (fun y => !(y == u.id))) ∧
    (c.user_list.contains u.id = false →
       disconnect_user_from_chat s u pk = (.badRequest, s)) := by
  have hperm : chatPermission u = true := hu
  refine ⟨?_, ?_, ?_, ?_⟩
  · intro hnm
    have hnm' : u.id ∉ c.user_list := by simpa using hnm
    constructor
    · simp [connect_support_to_chat, hperm, hc, hnm']
    · have h2 : (connect_support_to_chat s u pk).2 =
          updateChat s pk (fun x => { x with user_list := x.user_list ++ [u.id] }) := by
        simp [connect_support_to_chat, hperm, hc, hnm']
      rw [h2, chatMembers_updateChat
        (fun x => { x with user_list := x.user_list ++ [u.id] })
        (fun x => rfl) hc]
  · intro hm
    have hm' : u.id ∈ c.user_list := by simpa using hm
    simp [connect_support_to_chat, hperm, hc, hm']
  · intro hm
    have hm' : u.id ∈ c.user_list := by simpa using hm
    constructor
    · simp [disconnect_user_from_chat, hperm, hc, hm']
    · have h2 : (disconnect_user_from_chat s u pk).2 =
          updateChat s pk
            (fun x => { x with user_list := x.user_list.filter (fun y => !(y == u.id)) }) := by
        simp [disconnect_user_from_chat, hperm, hc, hm']
      rw [h2, chatMembers_updateChat
        (fun x => { x with user_list := x.user_list.filter (fun y => !(y == u.id)) })
        (fun x => rfl) hc]
  · intro hnm
    have hnm' : u.id ∉ c.user_list := by simpa using hnm
    simp [disconnect_user_from_chat, hperm, hc, hnm']

/-- Witness for `chat_membership_transitions_strict` at concrete
inputs: staff user 8 connects to chat 1 (members [9]) giving members
[9, 8]; a second connect on chat 2 (members [8, 9]) yields 400 with the
store unchanged; disconnect from chat 2 removes 8; disconnect from
chat 1 yields 400 with the store unchanged. -/
theorem chat_membership_transitions_strict_witness :
    (connect_support_to_chat
        ⟨[⟨1, true, true, 9, [9]⟩, ⟨2, true, true, 9, [8, 9]⟩], []⟩
        ⟨8, true, true⟩ 1).1 = .okDetail ∧
    chatMembers
        (connect_support_to_chat
          ⟨[⟨1, true, true, 9, [9]⟩, ⟨2, true, true, 9, [8, 9]⟩], []⟩
          ⟨8, true, true⟩ 1).2 1 = [9, 8] ∧
    connect_support_to_chat
        ⟨[⟨1, true, true, 9, [9]⟩, ⟨2, true, true, 9, [8, 9]⟩], []⟩
        ⟨8, true, true⟩ 2 =
      (.badRequest,
        ⟨[⟨1, true, true, 9, [9]⟩, ⟨2, true, true, 9, [8, 9]⟩], []⟩) ∧
    chatMembers
        (disconnect_user_from_chat
          ⟨[⟨1, true, true, 9, [9]⟩, ⟨2, true, true, 9, [8, 9]⟩], []⟩
          ⟨8, true, true⟩ 2).2 2 = [9] ∧
    disconnect_user_from_chat
        ⟨[⟨1, true, true, 9, [9]⟩, ⟨2, true, true, 9, [8, 9]⟩], []⟩
        ⟨8, true, true⟩ 1 =
      (.badRequest,
        ⟨[⟨1, true, true, 9, [9]⟩, ⟨2, true, true, 9, [8, 9]⟩], []⟩) := by
  have h1 := chat_membership_transitions_strict
    ⟨[⟨1, true, true, 9, [9]⟩, ⟨2, true, true, 9, [8, 9]⟩], []⟩
    ⟨8, true, true⟩ 1 ⟨1, true, true, 9, [9]⟩ (by rfl) (by rfl)
  have h2 := chat_membership_transitions_strict
    ⟨[⟨1, true, true, 9, [9]⟩, ⟨2, true, true, 9, [8, 9]⟩], []⟩
    ⟨8, true, true⟩ 2 ⟨2, true, true, 9, [8, 9]⟩ (by rfl) (by rfl)
  refine ⟨(h1.1 (by rfl)).1, ?_, h2.2.1 (by rfl), ?_, h1.2.2.2 (by rfl)⟩
  · rw [(h1.1 (by rfl)).2]
    rfl
  · rw [(h2.2.2.1 (by rfl)).2]
    rfl

/-! ## Claim C9: create_message attaches to the body's chat -/

/-- C9: the chat a new message lands in is determined entirely by the
request body's `support_msg` field — the handler writes the path pk
into a copied dict but validates and saves the original request data
(`chat_msg/views.py` lines 51 to 54) — so for an authorized caller
whose body names an existing chat different from the path id, the
message is created in the body's chat, and the whole operation is
independent of the path id. -/
theorem create_message_uses_body_chat (s : ChatStore) (u : User)
    (pk pk2 nid cid : Nat) (body : MessageCreateBody)
    (hu : IsAdminUser u = true) (hb : body.support_msg = some cid)
    (hex : s.chats.any (fun c => c.id == cid) = true) (hne : cid ≠ pk) :
    create_message s u pk body nid =
      (.okMessage ⟨nid, body.text, u.id, cid⟩,
        { s with messages := s.messages ++ [⟨nid, body.text, u.id, cid⟩] }) ∧
    create_message s u pk body nid = create_message s u pk2 body nid := by
  have hperm : chatPermission u = true := hu
  constructor
  · simp [create_message, hperm, validate_message_create, hb, hex]
  · simp [create_message]

/-- Witness for `create_message_uses_body_chat` at concrete inputs: a
staff caller posts to path id 1 with a body naming chat 3; the message
is stored in chat 3, and the same request on path id 2 behaves
identically. -/
theorem create_message_uses_body_chat_witness :
    create_message
        ⟨[⟨1, true, true, 9, [9]⟩, ⟨3, true, true, 9, [9]⟩], []⟩
        ⟨8, true, true⟩ 1 ⟨"yo", some 3⟩ 10 =
      (.okMessage ⟨10, "yo", 8, 3⟩,
        ⟨[⟨1, true, true, 9, [9]⟩, ⟨3, true, true, 9, [9]⟩],
         [⟨10, "yo", 8, 3⟩]⟩) ∧
    create_message
        ⟨[⟨1, true, true, 9, [9]⟩, ⟨3, true, true, 9, [9]⟩], []⟩
        ⟨8, true, true⟩ 1 ⟨"yo", some 3⟩ 10 =
      create_message
        ⟨[⟨1, true, true, 9, [9]⟩, ⟨3, true, true, 9, [9]⟩], []⟩
        ⟨8, true, true⟩ 2 ⟨"yo", some 3⟩ 10 := by
  have h := create_message_uses_body_chat
    ⟨[⟨1, true, true, 9, [9]⟩, ⟨3, true, true, 9, [9]⟩], []⟩
    ⟨8, true, true⟩ 1 2 10 3 ⟨"yo", some 3⟩
    (by rfl) (by rfl) (by rfl) (by decide)
  exact ⟨h.1, h.2⟩

/-! ## Claim C10: disabled chats and the standard operations -/

/-- C10 counterexample: the claim says retrieve of a disabled chat's id
yields not-found for every caller, but a non-staff caller — even a
member of the chat — is rejected with 403 by the viewset's `IsAdminUser`
permission before any lookup happens. -/
theorem disabled_chat_retrieve_forbidden_for_non_staff :
    chat_retrieve ⟨[⟨2, false, true, 7, [7]⟩], []⟩ ⟨7, true, false⟩ 2 =
      .forbidden ∧
    ChatResponse.forbidden ≠ ChatResponse.notFound := by
  exact ⟨by rfl, by decide⟩

/-- C10 (amended): a disabled chat is absent from every caller's
queryset, and for an authorized (staff) caller — the only callers the
`IsAdminUser` viewset permission lets through; non-staff callers get
403 before any lookup — retrieve, update and destroy on its id answer
not-found with the store unchanged, while `connect_support_to_chat`
and `disconnect_user_from_chat` resolve the chat directly by pk without
the enabled filter and so operate successfully on it. -/
theorem disabled_chat_standard_vs_membership_ops (s : ChatStore)
    (u : User) (c : ChatSupport) (pk : Nat)
    (upd : ChatSupport → ChatSupport)
    (hids : s.chats.Pairwise (fun a b => a.id ≠ b.id))
    (hmem : c ∈ s.chats) (hpk : c.id = pk) (hdis : c.enabled = false)
    (hu : IsAdminUser u = true) :
    (∀ u2 : User, c ∉ chat_get_queryset s u2) ∧
    (∀ u2 : User, IsAdminUser u2 = false → u2.is_authenticated = true →
       chat_retrieve s u2 pk = .forbidden) ∧
    chat_retrieve s u pk = .notFound ∧
    chat_update s u pk upd = (.notFound, s) ∧
    chat_destroy s u pk = (.notFound, s) ∧
    (c.user_list.contains u.id = false →
       (connect_support_to_chat s u pk).1 = .okDetail ∧
       chatMembers (connect_support_to_chat s u pk).2 pk =
         c.user_list ++ [u.id]) ∧
    (c.user_list.contains u.id = true →
       (disconnect_user_from_chat s u pk).1 = .okDetail) := by
  have hperm : chatPermission u = true := hu
  have hfind : s.chats.find? (fun x => x.id == pk) = some c :=
    find_of_mem_pairwise hids hmem hpk
  have hqnone : ∀ u2 : User,
      (chat_get_queryset s u2).find? (fun x => x.id == pk) = none := by
    intro u2
    rw [List.find?_eq_none]
    intro x hx
    have hx' := mem_of_mem_chat_queryset hx
    intro hxpk
    have hxid : x.id = pk := by simpa using hxpk
    have hxc : x = c := mem_id_unique hids hx'.1 hmem (hxid.trans hpk.symm)
    rw [hxc] at hx'
    rw [hx'.2] at hdis
    exact Bool.noConfusion hdis
  refine ⟨?_, ?_, ?_, ?_, ?_, ?_, ?_⟩
  · intro u2 hmem2
    have hx' := mem_of_mem_chat_queryset hmem2
    rw [hx'.2] at hdis
    exact Bool.noConfusion hdis
  · intro u2 hnadmin hauth
    simp [chat_retrieve, chatPermission, hnadmin, deniedResponse, hauth]
  · simp [chat_retrieve, hperm, hqnone u]
  · simp [chat_update, hperm, hqnone u]
  · simp [chat_destroy, hperm, hqnone u]
  · intro hnm
    have hnm' : u.id ∉ c.user_list := by simpa using hnm
    constructor
    · simp [connect_support_to_chat, hperm, hfind, hnm']
    · have h2 : (connect_support_to_chat s u pk).2 =
          updateChat s pk (fun x => { x with user_list := x.user_list ++ [u.id] }) := by
        simp [connect_support_to_chat, hperm, hfind, hnm']
      rw [h2, chatMembers_updateChat
        (fun x => { x with user_list := x.user_list ++ [u.id] })
        (fun x => rfl) hfind]
  · intro hm
    have hm' : u.id ∈ c.user_list := by simpa using hm
    simp [disconnect_user_from_chat, hperm, hfind, hm']

/-- Witness for `disabled_chat_standard_vs_membership_ops` at concrete
inputs: disabled chat 2 is invisible to staff retrieve/update/destroy
(not-found, store unchanged) and forbidden to a non-staff caller, yet
staff user 8 successfully connects to it. -/
theorem disabled_chat_standard_vs_membership_ops_witness :
    chat_retrieve ⟨[⟨2, false, true, 7, [7]⟩], []⟩ ⟨8, true, true⟩ 2 =
      .notFound ∧
    chat_destroy ⟨[⟨2, false, true, 7, [7]⟩], []⟩ ⟨8, true, true⟩ 2 =
      (.notFound, ⟨[⟨2, false, true, 7, [7]⟩], []⟩) ∧
    chat_retrieve ⟨[⟨2, false, true, 7, [7]⟩], []⟩ ⟨7, true, false⟩ 2 =
      .forbidden ∧
    (connect_support_to_chat ⟨[⟨2, false, true, 7, [7]⟩], []⟩
        ⟨8, true, true⟩ 2).1 = .okDetail ∧
    chatMembers
        (connect_support_to_chat ⟨[⟨2, false, true, 7, [7]⟩], []⟩
          ⟨8, true, true⟩ 2).2 2 = [7, 8] := by
  have h := disabled_chat_standard_vs_membership_ops
    ⟨[⟨2, false, true, 7, [7]⟩], []⟩ ⟨8, true, true⟩
    ⟨2, false, true, 7, [7]⟩ 2 (fun x => x)
    (by simp) (by simp) (by rfl) (by rfl) (by rfl)
  refine ⟨h.2.2.1, h.2.2.2.2.1, h.2.1 ⟨7, true, false⟩ (by rfl) (by rfl),
    (h.2.2.2.2.2.1 (by rfl)).1, ?_⟩
  rw [(h.2.2.2.2.2.1 (by rfl)).2]
  rfl
